import Mathlib

/-!
Verification development for `swagger-ui-firebase-auth` (src/index.js,
src/index.d.ts).

The package string-templates a browser script into which the plugin options
are substituted.  The behavioural core is the token-refresh coordinator that
the generated script defines (src/index.js lines 203-488): `parseJwt`,
`updateSwaggerAuth`, `setupRefreshTimer`, `clearRefreshTimer`, the
`onIdTokenChanged` handler and the popup `logout` handler.  Those functions
are embedded here at two levels of granularity over a common explicit
`CoordState`; JavaScript timers are modelled by an explicit multiset of
pending `(id, delay)` pairs, `setTimeout` hands out fresh ids and
`clearTimeout id` removes `id` from the pending set.

The coarse model (`Event`, `step`, `run`) runs each handler together with
its token-fetch continuations as one atomic step, with the asynchronous
fetch completions (`user.getIdToken()` / `user.getIdToken(true)`) supplied
as oracle data (`Round`); it is used for the per-call properties, where a
single uninterrupted continuation chain is examined.

The fine model (`AsyncEvent`, `stepAsync`, `runAsync`) splits every chain at
its `await`/`.then` points: each outstanding fetch is an explicit pending
task (`PendingFetch`) whose continuation runs only when a later `complete`
event delivers its result, so fetch continuations of different notifications
may interleave in any order, exactly as browser microtasks do.  This is the
model in which the global timer-uniqueness property must be judged: the
cancel at src/index.js lines 247-250 runs when `setupRefreshTimer` is
called, while the arming at line 266 runs in the `getIdToken` continuation
with no re-check, so two overlapping chains can both pass the cancel before
either arms.

The Node-side generation functions (`buildSignInOptions`,
`generateSignInOptionsCode`, `generatePluginScript`,
`createSwaggerFirebaseAuth`, `DEFAULT_OPTIONS` and the CDN URL constants) are
embedded directly.  The static template text of the generated script is not
reproduced character-for-character; `generatePluginScript` returns the data
that is substituted into the template (the Firebase config, the merged
options, and the generated sign-in-options code), which is everything the
properties below depend on.
-/

namespace SwaggerFirebaseAuth

/-- Claims of a decoded JWT payload.  Only the `exp` claim (seconds since
epoch) is read by the source; it may be absent from the payload. -/
structure JwtClaims where
  exp : Option Int
deriving DecidableEq

/-- A raw token either decodes to a JSON payload (`decodable`) or
`parseJwt`'s base64/JSON pipeline throws (`undecodable`, the `catch` branch
at src/index.js line 223). -/
inductive JwtForm where
  | decodable (claims : JwtClaims)
  | undecodable
deriving DecidableEq

/-- A bearer token: its raw string (what is spliced after `Bearer `) together
with how its payload segment decodes. -/
structure Token where
  raw : String
  form : JwtForm
deriving DecidableEq

/-- Embedding of `parseJwt` (src/index.js lines 212-227): returns the decoded
payload object, or `none` when decoding throws (the function logs and
returns `null`). -/
def parseJwt (t : Token) : Option JwtClaims :=
  match t.form with
  | .decodable c => some c
  | .undecodable => none

/-- The guard `!decoded || !decoded.exp` at line 254, as the value it lets
through: `some e` exactly when the payload decodes and carries a truthy
`exp` claim (in JavaScript `0` is falsy, so `exp = 0` is rejected too). -/
def truthyExp (t : Token) : Option Int :=
  match parseJwt t with
  | none => none
  | some c =>
    match c.exp with
    | none => none
    | some e => if e = 0 then none else some e

/-- Error object rejected by a Firebase token fetch; `code` is its `e.code`
field (absent when the error carries none). -/
structure AuthErr where
  code : Option String
deriving DecidableEq

/-- The condition at src/index.js line 274:
`e.code === 'auth/user-token-expired' || e.code === 'auth/invalid-user-token'`. -/
def isSessionInvalidCode (e : AuthErr) : Bool :=
  e.code == some "auth/user-token-expired" || e.code == some "auth/invalid-user-token"

/-- Decidable equality for `Except` results of token fetches. -/
def exceptDecEq {ε α : Type} [DecidableEq ε] [DecidableEq α] :
    (x y : Except ε α) → Decidable (x = y)
  | .error a, .error b =>
    if h : a = b then .isTrue (by rw [h]) else .isFalse (by simp [h])
  | .error _, .ok _ => .isFalse (by simp)
  | .ok _, .error _ => .isFalse (by simp)
  | .ok a, .ok b =>
    if h : a = b then .isTrue (by rw [h]) else .isFalse (by simp [h])

instance {ε α : Type} [DecidableEq ε] [DecidableEq α] : DecidableEq (Except ε α) :=
  exceptDecEq

/-- Oracle data for one arming pass of `setupRefreshTimer`: the outcome of
the cached fetch `user.getIdToken()`, the value `Date.now()` reads at line
261, and the outcome of the forced fetch `user.getIdToken(true)` on the
immediate-refresh branch (consulted only when `delay <= 0`). -/
structure Round where
  cached : Except AuthErr Token
  now : Int
  forced : Except AuthErr Token
deriving DecidableEq

/-- A custom provider config object is represented opaquely; for the
generation pipeline it is identified with its JSON serialisation. -/
inductive ProviderInput (α : Type) where
  | str (s : String)
  | custom (cfg : α)
deriving DecidableEq

/-- Merged plugin options (shape of `DEFAULT_OPTIONS`, src/index.js lines
23-36). -/
structure Options where
  authProviders : List (ProviderInput String)
  refreshBeforeExpiryMs : Int
  signInFlow : String
  securitySchemeName : String
  tosUrl : Option String
  privacyPolicyUrl : Option String
deriving DecidableEq

/-- Embedding of `DEFAULT_OPTIONS` (src/index.js lines 23-36). -/
def DEFAULT_OPTIONS : Options where
  authProviders := [.str "email"]
  refreshBeforeExpiryMs := 5 * 60 * 1000
  signInFlow := "popup"
  securitySchemeName := "firebase"
  tosUrl := none
  privacyPolicyUrl := none

/-- Caller-supplied options object; absent fields fall back to
`DEFAULT_OPTIONS` under the spread `{ ...DEFAULT_OPTIONS, ...options }`. -/
structure PartialOptions where
  authProviders : Option (List (ProviderInput String)) := none
  refreshBeforeExpiryMs : Option Int := none
  signInFlow : Option String := none
  securitySchemeName : Option String := none
  tosUrl : Option (Option String) := none
  privacyPolicyUrl : Option (Option String) := none
deriving DecidableEq

/-- The spread merge `{ ...DEFAULT_OPTIONS, ...options }` at src/index.js
line 166. -/
def mergeOptions (p : PartialOptions) : Options where
  authProviders := p.authProviders.getD DEFAULT_OPTIONS.authProviders
  refreshBeforeExpiryMs := p.refreshBeforeExpiryMs.getD DEFAULT_OPTIONS.refreshBeforeExpiryMs
  signInFlow := p.signInFlow.getD DEFAULT_OPTIONS.signInFlow
  securitySchemeName := p.securitySchemeName.getD DEFAULT_OPTIONS.securitySchemeName
  tosUrl := p.tosUrl.getD DEFAULT_OPTIONS.tosUrl
  privacyPolicyUrl := p.privacyPolicyUrl.getD DEFAULT_OPTIONS.privacyPolicyUrl

/-- The authorization entry `updateSwaggerAuth` writes (src/index.js lines
232-242): `name`, the nested `schema` fields, and `value`. -/
structure AuthEntry where
  name : String
  schemaType : String
  schemaIn : String
  schemaName : String
  value : String
deriving DecidableEq

/-- The entry for scheme `scheme` and raw token `token`:
`schema = \x7btype: apiKey, in: header, name: authorization\x7d` and
`value = 'Bearer ' + token`. -/
def mkAuthEntry (scheme token : String) : AuthEntry where
  name := scheme
  schemaType := "apiKey"
  schemaIn := "header"
  schemaName := "authorization"
  value := "Bearer " ++ token

/-- Observable calls into Swagger UI's auth actions:
`logoutWithPersistOption` and `authorizeWithPersistOption`. -/
inductive AuthAction where
  | logout (schemes : List String)
  | authorize (scheme : String) (entry : AuthEntry)
deriving DecidableEq

/-- Console messages emitted by the coordinator, one tag per call site in
src/index.js (the literal message text is elided; only which site logged
matters to the properties). -/
inductive LogMsg where
  | parseJwtFailed
  | couldNotParseExp
  | refreshScheduled
  | tokenRefreshed
  | refreshFailed
  | sessionExpiredSigningOut
  | refreshingImmediately
  | immediateRefreshFailed
  | getTokenForSchedulingFailed
  | timerCleared
  | tokenUpdatedViaListener
deriving DecidableEq

/-- State of the generated script's coordinator: the `refreshTimerId`
variable, the browser's set of pending timeouts (with the delay each was
armed with), a fresh-id counter, the Swagger auth store projection (assoc
list keyed by scheme name), the trace of auth-action calls (most recent
first), and counters for `signOut()` calls and forced fetches, plus the
console log (most recent first). -/
structure CoordState where
  refreshTimerId : Option Nat
  nextTimerId : Nat
  pendingTimers : List (Nat × Int)
  proj : List (String × AuthEntry)
  trace : List AuthAction
  signOutCount : Nat
  forcedFetches : Nat
  log : List LogMsg
deriving DecidableEq

/-- Initial state on page load: no timer, empty auth store. -/
def initState : CoordState where
  refreshTimerId := none
  nextTimerId := 1
  pendingTimers := []
  proj := []
  trace := []
  signOutCount := 0
  forcedFetches := 0
  log := []

/-- Append a console message. -/
def logMsg (m : LogMsg) (s : CoordState) : CoordState :=
  { s with log := m :: s.log }

/-- The call `firebase.auth().signOut()`. -/
def signOut (s : CoordState) : CoordState :=
  { s with signOutCount := s.signOutCount + 1 }

/-- Browser `clearTimeout id`: the pending timeout with that id (if any) is
removed. -/
def jsClearTimeout (id : Nat) (s : CoordState) : CoordState :=
  { s with pendingTimers := s.pendingTimers.filter (fun p => p.1 != id) }

/-- Browser `setTimeout(cb, delay)`: a fresh id is handed out and stored in
`refreshTimerId` (src/index.js line 266). -/
def armTimer (delay : Int) (s : CoordState) : CoordState :=
  { s with
    pendingTimers := (s.nextTimerId, delay) :: s.pendingTimers
    refreshTimerId := some s.nextTimerId
    nextTimerId := s.nextTimerId + 1 }

/-- Lines 247-250 of src/index.js, the unconditional head of
`setupRefreshTimer`: `if (refreshTimerId) \x7b clearTimeout(refreshTimerId);
refreshTimerId = null; \x7d` (no log message at this site). -/
def cancelStoredTimer (s : CoordState) : CoordState :=
  match s.refreshTimerId with
  | some id => { jsClearTimeout id s with refreshTimerId := none }
  | none => s

/-- Embedding of `clearRefreshTimer` (src/index.js lines 295-301), which
additionally logs when a timer was cleared. -/
def clearRefreshTimer (s : CoordState) : CoordState :=
  match s.refreshTimerId with
  | some id => logMsg .timerCleared { jsClearTimeout id s with refreshTimerId := none }
  | none => s

/-- Remove a scheme's entry from the auth store projection. -/
def eraseKey (k : String) (m : List (String × AuthEntry)) : List (String × AuthEntry) :=
  m.filter (fun p => p.1 != k)

/-- Install a scheme's entry in the auth store projection. -/
def setKey (k : String) (v : AuthEntry) (m : List (String × AuthEntry)) :
    List (String × AuthEntry) :=
  (k, v) :: eraseKey k m

/-- Look a scheme's entry up in the auth store projection. -/
def getKey (k : String) (m : List (String × AuthEntry)) : Option AuthEntry :=
  (m.find? (fun p => p.1 == k)).map (fun p => p.2)

/-- The call `authActions.logoutWithPersistOption(schemes)`. -/
def applyLogout (schemes : List String) (s : CoordState) : CoordState :=
  { s with
    proj := schemes.foldl (fun m k => eraseKey k m) s.proj
    trace := .logout schemes :: s.trace }

/-- The call `authActions.authorizeWithPersistOption(\x7b scheme: entry \x7d)`. -/
def applyAuthorize (scheme : String) (entry : AuthEntry) (s : CoordState) : CoordState :=
  { s with
    proj := setKey scheme entry s.proj
    trace := .authorize scheme entry :: s.trace }

/-- Embedding of `updateSwaggerAuth` (src/index.js lines 230-243): logout for
the configured scheme immediately followed by authorize with the new
entry. -/
def updateSwaggerAuth (scheme token : String) (s : CoordState) : CoordState :=
  applyAuthorize scheme (mkAuthEntry scheme token) (applyLogout [scheme] s)

/-- Embedding of `setupRefreshTimer` (src/index.js lines 246-293).  Each
list element feeds one arming pass (the recursion on the immediate-refresh
branch, line 284, consumes the next element); an empty list means the
`getIdToken()` promise of the current pass has not completed, so only the
synchronous cancel at lines 247-250 has run. -/
def setupRefreshTimer (opts : Options) : List Round → CoordState → CoordState
  | [], s => cancelStoredTimer s
  | r :: rest, s =>
    let s1 := cancelStoredTimer s
    match r.cached with
    | .error _ => logMsg .getTokenForSchedulingFailed s1
    | .ok token =>
      match truthyExp token with
      | none =>
        let s2 := if (parseJwt token).isNone then logMsg .parseJwtFailed s1 else s1
        logMsg .couldNotParseExp s2
      | some ex =>
        let expiresAt := ex * 1000
        let refreshAt := expiresAt - opts.refreshBeforeExpiryMs
        let delay := refreshAt - r.now
        if 0 < delay then
          armTimer delay (logMsg .refreshScheduled s1)
        else
          let s2 := { logMsg .refreshingImmediately s1 with
                      forcedFetches := s1.forcedFetches + 1 }
          match r.forced with
          | .ok newToken =>
            setupRefreshTimer opts rest
              (updateSwaggerAuth opts.securitySchemeName newToken.raw s2)
          | .error _ => signOut (logMsg .immediateRefreshFailed s2)

/-- Firing of the pending refresh timeout: the callback at src/index.js
lines 266-279.  The fired timeout leaves the pending set; `refreshTimerId`
keeps its (now stale) value, exactly as in the source.  `forced` is the
outcome of `await user.getIdToken(true)`; `rounds` feeds the re-arming call
on success. -/
def fireTimer (opts : Options) (forced : Except AuthErr Token) (rounds : List Round)
    (s : CoordState) : CoordState :=
  match s.pendingTimers with
  | [] => s
  | _t :: restTimers =>
    let s1 := { s with
                pendingTimers := restTimers
                forcedFetches := s.forcedFetches + 1 }
    match forced with
    | .ok newToken =>
      setupRefreshTimer opts rounds
        (updateSwaggerAuth opts.securitySchemeName newToken.raw (logMsg .tokenRefreshed s1))
    | .error e =>
      let s2 := logMsg .refreshFailed s1
      if isSessionInvalidCode e then
        signOut (logMsg .sessionExpiredSigningOut s2)
      else s2

/-- External stimuli of the coordinator.  `idChangedSignedIn` is
`onIdTokenChanged` with a user (src/index.js lines 320-325): `cachedTop` is
the outcome of the handler's own `user.getIdToken()` (its rejection is
unhandled in the source, so nothing runs), `rounds` feeds the
`setupRefreshTimer` call.  `idChangedSignedOut` is the `else` branch (lines
326-329).  `timerFire` is the refresh timeout firing.  `logoutClick` is the
popup's `logout` handler (lines 360-365); `unmount` the effect cleanup
(lines 332-335). -/
inductive Event where
  | idChangedSignedIn (cachedTop : Except AuthErr Token) (rounds : List Round)
  | idChangedSignedOut
  | timerFire (forced : Except AuthErr Token) (rounds : List Round)
  | logoutClick
  | unmount
deriving DecidableEq

/-- One coordinator step per stimulus. -/
def step (opts : Options) (s : CoordState) : Event → CoordState
  | .idChangedSignedIn cachedTop rounds =>
    match cachedTop with
    | .error _ => s
    | .ok idToken =>
      setupRefreshTimer opts rounds
        (updateSwaggerAuth opts.securitySchemeName idToken.raw
          (logMsg .tokenUpdatedViaListener s))
  | .idChangedSignedOut =>
    applyLogout [opts.securitySchemeName] (clearRefreshTimer s)
  | .timerFire forced rounds => fireTimer opts forced rounds s
  | .logoutClick =>
    applyLogout [opts.securitySchemeName] (signOut (clearRefreshTimer s))
  | .unmount => clearRefreshTimer s

/-- Run the coordinator from page load through a sequence of stimuli. -/
def run (opts : Options) (events : List Event) : CoordState :=
  events.foldl (step opts) initState

/-- A non-custom entry that `buildSignInOptions` pushes as an object literal:
`provider` is the string stored in the object's `provider` field, the other
fields are present only for the providers that set them. -/
structure ProviderObj where
  provider : String
  requireDisplayName : Option Bool
  customParametersPrompt : Option String
  defaultCountry : Option String
deriving DecidableEq

/-- An element of the list `buildSignInOptions` returns: an object literal,
a bare provider-id string, or a custom config object pushed through as
is. -/
inductive SignInEntry (α : Type) where
  | objEntry (o : ProviderObj)
  | strId (s : String)
  | custom (cfg : α)
deriving DecidableEq

/-- What one iteration of the `buildSignInOptions` loop (src/index.js lines
44-91) pushes for a given provider: one entry for a custom object or a known
string, nothing for an unknown string (the `default` branch only warns).
The `switch` is rendered as the equivalent chain of equality tests. -/
def buildSignInOptionsStep {α : Type} (p : ProviderInput α) : List (SignInEntry α) :=
  match p with
  | .custom c => [.custom c]
  | .str s =>
    if s = "email" then
      [.objEntry { provider := "firebase.auth.EmailAuthProvider.PROVIDER_ID",
                   requireDisplayName := some false,
                   customParametersPrompt := none, defaultCountry := none }]
    else if s = "google" then
      [.objEntry { provider := "firebase.auth.GoogleAuthProvider.PROVIDER_ID",
                   requireDisplayName := none,
                   customParametersPrompt := some "select_account", defaultCountry := none }]
    else if s = "apple" then [.strId "firebase.auth.OAuthProvider.PROVIDER_ID_APPLE"]
    else if s = "github" then [.strId "firebase.auth.GithubAuthProvider.PROVIDER_ID"]
    else if s = "microsoft" then [.strId "firebase.auth.OAuthProvider.PROVIDER_ID_MICROSOFT"]
    else if s = "twitter" then [.strId "firebase.auth.TwitterAuthProvider.PROVIDER_ID"]
    else if s = "facebook" then [.strId "firebase.auth.FacebookAuthProvider.PROVIDER_ID"]
    else if s = "phone" then
      [.objEntry { provider := "firebase.auth.PhoneAuthProvider.PROVIDER_ID",
                   requireDisplayName := none,
                   customParametersPrompt := none, defaultCountry := some "US" }]
    else if s = "anonymous" then [.strId "firebaseui.auth.AnonymousAuthProvider.PROVIDER_ID"]
    else []

/-- Embedding of `buildSignInOptions` (src/index.js lines 41-94). -/
def buildSignInOptions {α : Type} : List (ProviderInput α) → List (SignInEntry α)
  | [] => []
  | p :: rest => buildSignInOptionsStep p ++ buildSignInOptions rest

/-- What one iteration of the `generateSignInOptionsCode` loop (src/index.js
lines 102-153) pushes: a code-snippet string for a known provider,
`JSON.stringify(provider)` for a custom object, nothing for an unknown
string (this switch has no `default` case). -/
def generateSignInOptionsCodeStep {α : Type} (jsonStringify : α → String)
    (p : ProviderInput α) : List String :=
  match p with
  | .custom c => [jsonStringify c]
  | .str s =>
    if s = "email" then
      ["\x7b\n            provider: firebase.auth.EmailAuthProvider.PROVIDER_ID,\n            requireDisplayName: false,\n          \x7d"]
    else if s = "google" then
      ["\x7b\n            provider: firebase.auth.GoogleAuthProvider.PROVIDER_ID,\n            customParameters: \x7b prompt: \x27select_account\x27 \x7d,\n          \x7d"]
    else if s = "apple" then
      ["\x7b\n            provider: \x27apple.com\x27,\n            providerName: \x27Apple\x27,\n          \x7d"]
    else if s = "github" then ["firebase.auth.GithubAuthProvider.PROVIDER_ID"]
    else if s = "microsoft" then
      ["\x7b\n            provider: \x27microsoft.com\x27,\n            providerName: \x27Microsoft\x27,\n          \x7d"]
    else if s = "twitter" then ["firebase.auth.TwitterAuthProvider.PROVIDER_ID"]
    else if s = "facebook" then ["firebase.auth.FacebookAuthProvider.PROVIDER_ID"]
    else if s = "phone" then
      ["\x7b\n            provider: firebase.auth.PhoneAuthProvider.PROVIDER_ID,\n            defaultCountry: \x27US\x27,\n          \x7d"]
    else if s = "anonymous" then ["firebaseui.auth.AnonymousAuthProvider.PROVIDER_ID"]
    else []

/-- The `options` array built by `generateSignInOptionsCode` before the final
`join`. -/
def generateSignInOptionsList {α : Type} (jsonStringify : α → String) :
    List (ProviderInput α) → List String
  | [] => []
  | p :: rest =>
    generateSignInOptionsCodeStep jsonStringify p ++
      generateSignInOptionsList jsonStringify rest

/-- Embedding of `generateSignInOptionsCode` (src/index.js lines 99-156):
the pushed snippets joined with the literal separator of line 155. -/
def generateSignInOptionsCode {α : Type} (jsonStringify : α → String)
    (providers : List (ProviderInput α)) : String :=
  String.intercalate ",\n                  "
    (generateSignInOptionsList jsonStringify providers)

/-- Firebase configuration object (shape declared in src/index.d.ts lines
4-12); every field may be absent at runtime, since `createSwaggerFirebaseAuth`
receives an arbitrary JavaScript object. -/
structure FirebaseConfig where
  apiKey : Option String
  authDomain : Option String
  projectId : Option String
  storageBucket : Option String
  messagingSenderId : Option String
  appId : Option String
  measurementId : Option String
deriving DecidableEq

/-- JavaScript truthiness of an optional string field: absent and the empty
string are falsy. -/
def jsTruthyStr : Option String → Bool
  | none => false
  | some s => !(s == "")

/-- The fields the declared `FirebaseConfig` type (src/index.d.ts lines
4-12) marks required: `apiKey`, `authDomain`, `projectId`. -/
def hasRequiredConfigFields (c : FirebaseConfig) : Bool :=
  c.apiKey.isSome && c.authDomain.isSome && c.projectId.isSome

/-- Embedding of `FIREBASE_JS_URLS` (src/index.js lines 12-16), with the
version template literals resolved. -/
def FIREBASE_JS_URLS : List String :=
  ["https://www.gstatic.com/firebasejs/12.7.0/firebase-app-compat.js",
   "https://www.gstatic.com/firebasejs/12.7.0/firebase-auth-compat.js",
   "https://www.gstatic.com/firebasejs/ui/6.1.0/firebase-ui-auth.js"]

/-- Embedding of `FIREBASE_CSS_URL` (src/index.js line 18). -/
def FIREBASE_CSS_URL : String :=
  "https://www.gstatic.com/firebasejs/ui/6.1.0/firebase-ui-auth.css"

/-- The data `generatePluginScript` (src/index.js lines 165-490) substitutes
into the generated script: the Firebase config (inlined as JSON), the merged
options (scheme name, refresh lead, sign-in flow, tos/privacy URLs), and the
generated sign-in-options code.  The surrounding static template text is
elided; custom provider configs are represented by their JSON text, so the
serializer is the identity. -/
structure PluginScript where
  firebaseConfig : FirebaseConfig
  opts : Options
  signInOptionsCode : String
deriving DecidableEq

/-- Embedding of `generatePluginScript` (src/index.js lines 165-490). -/
def generatePluginScript (firebaseConfig : FirebaseConfig)
    (options : PartialOptions) : PluginScript :=
  let opts := mergeOptions options
  { firebaseConfig := firebaseConfig
    opts := opts
    signInOptionsCode := generateSignInOptionsCode (fun s => s) opts.authProviders }

/-- The object `createSwaggerFirebaseAuth` returns (src/index.js lines
506-510). -/
structure SwaggerFirebaseAuthResult where
  customJs : List String
  customCssUrl : String
  initScript : PluginScript
deriving DecidableEq

/-- Embedding of `createSwaggerFirebaseAuth` (src/index.js lines 499-511):
`throw` is modelled as `Except.error` carrying the thrown message.  The
guard is `!firebaseConfig || !firebaseConfig.apiKey`. -/
def createSwaggerFirebaseAuth (firebaseConfig : Option FirebaseConfig)
    (options : PartialOptions) : Except String SwaggerFirebaseAuthResult :=
  match firebaseConfig with
  | none => .error "Firebase config with apiKey is required"
  | some cfg =>
    if !jsTruthyStr cfg.apiKey then
      .error "Firebase config with apiKey is required"
    else
      .ok { customJs := FIREBASE_JS_URLS
            customCssUrl := FIREBASE_CSS_URL
            initScript := generatePluginScript cfg options }

/-- Validity per the declared `AuthProvider` union type (src/index.d.ts
lines 17-27): a custom config object, or one of the nine known provider
strings. -/
def validProviderInput {α : Type} : ProviderInput α → Bool
  | .str s =>
    s == "email" || s == "google" || s == "apple" || s == "github" ||
      s == "microsoft" || s == "twitter" || s == "facebook" || s == "phone" ||
      s == "anonymous"
  | .custom _ => true

/-- The single entry (if any) one provider contributes to
`buildSignInOptions`' output. -/
def buildEntryFor {α : Type} (p : ProviderInput α) : Option (SignInEntry α) :=
  (buildSignInOptionsStep p).head?

/-- The single snippet (if any) one provider contributes to
`generateSignInOptionsCode`'s options array. -/
def genEntryFor {α : Type} (jsonStringify : α → String) (p : ProviderInput α) :
    Option String :=
  (generateSignInOptionsCodeStep jsonStringify p).head?

/-- Whether `createSwaggerFirebaseAuth` returned a result object rather than
throwing. -/
def isOkResult (x : Except String SwaggerFirebaseAuthResult) : Bool :=
  match x with
  | .ok _ => true
  | .error _ => false

/-- Timer-state invariant: either no timeout is pending, or exactly one is
and `refreshTimerId` stores its handle. -/
def timerTight (s : CoordState) : Prop :=
  s.pendingTimers = [] ∨
    ∃ p, s.pendingTimers = [p] ∧ s.refreshTimerId = some p.1

/-! Concrete fixtures used to instantiate the theorems below. -/

/-- A token whose payload decodes with `exp = 3600` (one hour past the
epoch). -/
def tokW : Token where
  raw := "t"
  form := .decodable { exp := some 3600 }

/-- A token whose payload does not decode. -/
def tokBad : Token where
  raw := "b"
  form := .undecodable

/-- A forced-fetch error whose code is not in the invalid-session class. -/
def errNetwork : AuthErr where
  code := some "auth/network-request-failed"

/-- An arming round observed at `now = 0`, well before `tokW` expires. -/
def roundW : Round where
  cached := .ok tokW
  now := 0
  forced := .ok tokW

/-- An arming round observed at the expiry instant of `tokW`, whose forced
fetch is rejected with a non-session error. -/
def roundImmediateFail : Round where
  cached := .ok tokW
  now := 3600000
  forced := .error errNetwork

/-- A coordinator state with one pending refresh timeout. -/
def sW : CoordState where
  refreshTimerId := some 1
  nextTimerId := 2
  pendingTimers := [(1, 1000)]
  proj := []
  trace := []
  signOutCount := 0
  forcedFetches := 0
  log := []

/-- A config that has `apiKey` but lacks the other fields the declared
`FirebaseConfig` type marks required. -/
def cfgApiKeyOnly : FirebaseConfig where
  apiKey := some "key"
  authDomain := none
  projectId := none
  storageBucket := none
  messagingSenderId := none
  appId := none
  measurementId := none

/-- An arming round observed at the expiry instant of `tokW`, whose forced
fetch succeeds with the same token. -/
def roundImmediateOk : Round where
  cached := .ok tokW
  now := 3600000
  forced := .ok tokW

/-- A provider list with two known strings and a custom config object. -/
def providersW : List (ProviderInput String) :=
  [.str "email", .str "google", .custom "customCfg"]

/-! The microtask-level (fine-grained) coordinator model.  Every `await` /
`.then` boundary of the source becomes an explicit suspension: an
outstanding token fetch is a pending task, and its continuation runs only
when a `complete` event delivers the fetch's result.  Continuations of
different notifications may therefore interleave in any order. -/

/-- An outstanding token fetch, identified by the call site whose
continuation is waiting on it:
`topFetch` is the `user.getIdToken()` of the `onIdTokenChanged` handler
(src/index.js line 321); `cachedFetch` the `user.getIdToken()` at line 252
(its caller already ran the cancel head at lines 247-250); `forcedImmediate`
the `user.getIdToken(true)` at line 282; `forcedTimer` the
`await user.getIdToken(true)` at line 268 inside the timer callback. -/
inductive PendingFetch where
  | topFetch
  | cachedFetch
  | forcedImmediate
  | forcedTimer
deriving DecidableEq

/-- Fine-grained coordinator state: the shared `CoordState` plus the list of
outstanding fetches whose continuations have not yet run. -/
structure AState where
  core : CoordState
  tasks : List PendingFetch
deriving DecidableEq

/-- Initial fine-grained state on page load. -/
def initAState : AState where
  core := initState
  tasks := []

/-- Run the continuation of fetch `k` when its result `res` arrives (`now`
is the `Date.now()` reading of line 261, used only by the `cachedFetch`
continuation).  Returns the updated core state and the fetches the
continuation itself initiates (each `setupRefreshTimer` call contributes its
synchronous cancel head at lines 247-250 and then initiates the cached
fetch; the arming at line 266 happens only in the `cachedFetch`
continuation, with no re-check of the cancel). -/
def runTaskCompletion (opts : Options) (k : PendingFetch)
    (res : Except AuthErr Token) (now : Int) (s : CoordState) :
    CoordState × List PendingFetch :=
  match k with
  | .topFetch =>
    match res with
    | .error _ => (s, [])
    | .ok idToken =>
      (cancelStoredTimer (updateSwaggerAuth opts.securitySchemeName idToken.raw
        (logMsg .tokenUpdatedViaListener s)), [.cachedFetch])
  | .cachedFetch =>
    match res with
    | .error _ => (logMsg .getTokenForSchedulingFailed s, [])
    | .ok token =>
      match truthyExp token with
      | none =>
        let s2 := if (parseJwt token).isNone then logMsg .parseJwtFailed s else s
        (logMsg .couldNotParseExp s2, [])
      | some ex =>
        let expiresAt := ex * 1000
        let refreshAt := expiresAt - opts.refreshBeforeExpiryMs
        let delay := refreshAt - now
        if 0 < delay then
          (armTimer delay (logMsg .refreshScheduled s), [])
        else
          ({ logMsg .refreshingImmediately s with
             forcedFetches := s.forcedFetches + 1 }, [.forcedImmediate])
  | .forcedImmediate =>
    match res with
    | .ok newToken =>
      (cancelStoredTimer (updateSwaggerAuth opts.securitySchemeName newToken.raw s),
        [.cachedFetch])
    | .error _ => (signOut (logMsg .immediateRefreshFailed s), [])
  | .forcedTimer =>
    match res with
    | .ok newToken =>
      (cancelStoredTimer (updateSwaggerAuth opts.securitySchemeName newToken.raw
        (logMsg .tokenRefreshed s)), [.cachedFetch])
    | .error e =>
      let s2 := logMsg .refreshFailed s
      if isSessionInvalidCode e then
        (signOut (logMsg .sessionExpiredSigningOut s2), [])
      else (s2, [])

/-- Fine-grained stimuli.  `notifySignedIn` runs only the synchronous part
of the signed-in handler (it initiates the top-level fetch);
`complete i res now` delivers result `res` to the `i`-th outstanding fetch
and runs its continuation up to the next suspension; `fire` fires the
pending timeout, whose callback immediately initiates the forced fetch.
`notifySignedOut`, `logoutClick` and `unmount` are synchronous in the
source and complete within their event. -/
inductive AsyncEvent where
  | notifySignedIn
  | notifySignedOut
  | fire
  | complete (i : Nat) (res : Except AuthErr Token) (now : Int)
  | logoutClick
  | unmount
deriving DecidableEq

/-- One fine-grained step per stimulus. -/
def stepAsync (opts : Options) (s : AState) : AsyncEvent → AState
  | .notifySignedIn => { s with tasks := s.tasks ++ [.topFetch] }
  | .notifySignedOut =>
    { s with core := applyLogout [opts.securitySchemeName] (clearRefreshTimer s.core) }
  | .fire =>
    match s.core.pendingTimers with
    | [] => s
    | _t :: rest =>
      { core := { s.core with
                  pendingTimers := rest
                  forcedFetches := s.core.forcedFetches + 1 }
        tasks := s.tasks ++ [.forcedTimer] }
  | .complete i res now =>
    match s.tasks[i]? with
    | none => s
    | some k =>
      { core := (runTaskCompletion opts k res now s.core).1
        tasks := s.tasks.eraseIdx i ++ (runTaskCompletion opts k res now s.core).2 }
  | .logoutClick =>
    { s with core := applyLogout [opts.securitySchemeName] (signOut (clearRefreshTimer s.core)) }
  | .unmount => { s with core := clearRefreshTimer s.core }

/-- Run the fine-grained coordinator from page load. -/
def runAsync (opts : Options) (events : List AsyncEvent) : AState :=
  events.foldl (stepAsync opts) initAState

/-- Invariant of serialized (non-overlapping) schedules: the timer state is
tight, and at most one fetch is outstanding — with the extra knowledge that
while the cached fetch is outstanding no timeout is pending (its caller's
cancel head already ran and nothing can arm before its continuation). -/
def asyncSerialInv (s : AState) : Prop :=
  timerTight s.core ∧
    (s.tasks = [] ∨ ∃ k, s.tasks = [k] ∧
      (k = PendingFetch.cachedFetch → s.core.pendingTimers = []))

/-- A serialized schedule: one sign-in notification whose two fetch
continuations complete in order before anything else happens. -/
def serialEvents : List AsyncEvent :=
  [.notifySignedIn, .complete 0 (.ok tokW) 0, .complete 0 (.ok tokW) 0]

/-- An interleaved schedule: two rapid sign-in notifications; both top-level
continuations run (each passing the cancel head with no timer stored), and
only then do the two cached-fetch continuations run, each arming a
timeout. -/
def raceEvents : List AsyncEvent :=
  [.notifySignedIn, .notifySignedIn,
   .complete 0 (.ok tokW) 0, .complete 0 (.ok tokW) 0,
   .complete 0 (.ok tokW) 0, .complete 0 (.ok tokW) 0]

/-! Basic lemmas about the state helpers. -/

@[simp] theorem logMsg_pendingTimers (m : LogMsg) (s : CoordState) :
    (logMsg m s).pendingTimers = s.pendingTimers := rfl

@[simp] theorem logMsg_refreshTimerId (m : LogMsg) (s : CoordState) :
    (logMsg m s).refreshTimerId = s.refreshTimerId := rfl

@[simp] theorem logMsg_nextTimerId (m : LogMsg) (s : CoordState) :
    (logMsg m s).nextTimerId = s.nextTimerId := rfl

@[simp] theorem logMsg_proj (m : LogMsg) (s : CoordState) :
    (logMsg m s).proj = s.proj := rfl

@[simp] theorem logMsg_trace (m : LogMsg) (s : CoordState) :
    (logMsg m s).trace = s.trace := rfl

@[simp] theorem logMsg_signOutCount (m : LogMsg) (s : CoordState) :
    (logMsg m s).signOutCount = s.signOutCount := rfl

@[simp] theorem logMsg_forcedFetches (m : LogMsg) (s : CoordState) :
    (logMsg m s).forcedFetches = s.forcedFetches := rfl

@[simp] theorem logMsg_log (m : LogMsg) (s : CoordState) :
    (logMsg m s).log = m :: s.log := rfl

@[simp] theorem signOut_pendingTimers (s : CoordState) :
    (signOut s).pendingTimers = s.pendingTimers := rfl

@[simp] theorem signOut_refreshTimerId (s : CoordState) :
    (signOut s).refreshTimerId = s.refreshTimerId := rfl

@[simp] theorem signOut_nextTimerId (s : CoordState) :
    (signOut s).nextTimerId = s.nextTimerId := rfl

@[simp] theorem signOut_proj (s : CoordState) : (signOut s).proj = s.proj := rfl

@[simp] theorem signOut_trace (s : CoordState) : (signOut s).trace = s.trace := rfl

@[simp] theorem signOut_signOutCount (s : CoordState) :
    (signOut s).signOutCount = s.signOutCount + 1 := rfl

@[simp] theorem signOut_forcedFetches (s : CoordState) :
    (signOut s).forcedFetches = s.forcedFetches := rfl

@[simp] theorem signOut_log (s : CoordState) : (signOut s).log = s.log := rfl

@[simp] theorem applyLogout_pendingTimers (ks : List String) (s : CoordState) :
    (applyLogout ks s).pendingTimers = s.pendingTimers := rfl

@[simp] theorem applyLogout_refreshTimerId (ks : List String) (s : CoordState) :
    (applyLogout ks s).refreshTimerId = s.refreshTimerId := rfl

@[simp] theorem applyLogout_nextTimerId (ks : List String) (s : CoordState) :
    (applyLogout ks s).nextTimerId = s.nextTimerId := rfl

@[simp] theorem applyLogout_signOutCount (ks : List String) (s : CoordState) :
    (applyLogout ks s).signOutCount = s.signOutCount := rfl

@[simp] theorem applyLogout_forcedFetches (ks : List String) (s : CoordState) :
    (applyLogout ks s).forcedFetches = s.forcedFetches := rfl

@[simp] theorem applyLogout_log (ks : List String) (s : CoordState) :
    (applyLogout ks s).log = s.log := rfl

@[simp] theorem applyLogout_trace (ks : List String) (s : CoordState) :
    (applyLogout ks s).trace = .logout ks :: s.trace := rfl

@[simp] theorem applyLogout_single_proj (k : String) (s : CoordState) :
    (applyLogout [k] s).proj = eraseKey k s.proj := rfl

@[simp] theorem applyAuthorize_pendingTimers (k : String) (e : AuthEntry) (s : CoordState) :
    (applyAuthorize k e s).pendingTimers = s.pendingTimers := rfl

@[simp] theorem applyAuthorize_refreshTimerId (k : String) (e : AuthEntry) (s : CoordState) :
    (applyAuthorize k e s).refreshTimerId = s.refreshTimerId := rfl

@[simp] theorem applyAuthorize_nextTimerId (k : String) (e : AuthEntry) (s : CoordState) :
    (applyAuthorize k e s).nextTimerId = s.nextTimerId := rfl

@[simp] theorem applyAuthorize_signOutCount (k : String) (e : AuthEntry) (s : CoordState) :
    (applyAuthorize k e s).signOutCount = s.signOutCount := rfl

@[simp] theorem applyAuthorize_forcedFetches (k : String) (e : AuthEntry) (s : CoordState) :
    (applyAuthorize k e s).forcedFetches = s.forcedFetches := rfl

@[simp] theorem applyAuthorize_log (k : String) (e : AuthEntry) (s : CoordState) :
    (applyAuthorize k e s).log = s.log := rfl

@[simp] theorem applyAuthorize_trace (k : String) (e : AuthEntry) (s : CoordState) :
    (applyAuthorize k e s).trace = .authorize k e :: s.trace := rfl

@[simp] theorem applyAuthorize_proj (k : String) (e : AuthEntry) (s : CoordState) :
    (applyAuthorize k e s).proj = setKey k e s.proj := rfl

@[simp] theorem updateSwaggerAuth_pendingTimers (k t : String) (s : CoordState) :
    (updateSwaggerAuth k t s).pendingTimers = s.pendingTimers := rfl

@[simp] theorem updateSwaggerAuth_refreshTimerId (k t : String) (s : CoordState) :
    (updateSwaggerAuth k t s).refreshTimerId = s.refreshTimerId := rfl

@[simp] theorem updateSwaggerAuth_nextTimerId (k t : String) (s : CoordState) :
    (updateSwaggerAuth k t s).nextTimerId = s.nextTimerId := rfl

@[simp] theorem updateSwaggerAuth_signOutCount (k t : String) (s : CoordState) :
    (updateSwaggerAuth k t s).signOutCount = s.signOutCount := rfl

@[simp] theorem updateSwaggerAuth_forcedFetches (k t : String) (s : CoordState) :
    (updateSwaggerAuth k t s).forcedFetches = s.forcedFetches := rfl

@[simp] theorem updateSwaggerAuth_log (k t : String) (s : CoordState) :
    (updateSwaggerAuth k t s).log = s.log := rfl

@[simp] theorem updateSwaggerAuth_trace (k t : String) (s : CoordState) :
    (updateSwaggerAuth k t s).trace =
      .authorize k (mkAuthEntry k t) :: .logout [k] :: s.trace := rfl

@[simp] theorem updateSwaggerAuth_proj (k t : String) (s : CoordState) :
    (updateSwaggerAuth k t s).proj =
      setKey k (mkAuthEntry k t) (eraseKey k s.proj) := rfl

@[simp] theorem armTimer_pendingTimers (d : Int) (s : CoordState) :
    (armTimer d s).pendingTimers = (s.nextTimerId, d) :: s.pendingTimers := rfl

@[simp] theorem armTimer_refreshTimerId (d : Int) (s : CoordState) :
    (armTimer d s).refreshTimerId = some s.nextTimerId := rfl

@[simp] theorem armTimer_proj (d : Int) (s : CoordState) :
    (armTimer d s).proj = s.proj := rfl

@[simp] theorem armTimer_trace (d : Int) (s : CoordState) :
    (armTimer d s).trace = s.trace := rfl

@[simp] theorem armTimer_signOutCount (d : Int) (s : CoordState) :
    (armTimer d s).signOutCount = s.signOutCount := rfl

@[simp] theorem armTimer_forcedFetches (d : Int) (s : CoordState) :
    (armTimer d s).forcedFetches = s.forcedFetches := rfl

@[simp] theorem armTimer_log (d : Int) (s : CoordState) :
    (armTimer d s).log = s.log := rfl

@[simp] theorem cancelStoredTimer_refreshTimerId (s : CoordState) :
    (cancelStoredTimer s).refreshTimerId = none := by
  unfold cancelStoredTimer
  cases h : s.refreshTimerId
  · exact h
  · rfl

@[simp] theorem cancelStoredTimer_nextTimerId (s : CoordState) :
    (cancelStoredTimer s).nextTimerId = s.nextTimerId := by
  unfold cancelStoredTimer
  cases s.refreshTimerId <;> rfl

@[simp] theorem cancelStoredTimer_proj (s : CoordState) :
    (cancelStoredTimer s).proj = s.proj := by
  unfold cancelStoredTimer
  cases s.refreshTimerId <;> rfl

@[simp] theorem cancelStoredTimer_trace (s : CoordState) :
    (cancelStoredTimer s).trace = s.trace := by
  unfold cancelStoredTimer
  cases s.refreshTimerId <;> rfl

@[simp] theorem cancelStoredTimer_signOutCount (s : CoordState) :
    (cancelStoredTimer s).signOutCount = s.signOutCount := by
  unfold cancelStoredTimer
  cases s.refreshTimerId <;> rfl

@[simp] theorem cancelStoredTimer_forcedFetches (s : CoordState) :
    (cancelStoredTimer s).forcedFetches = s.forcedFetches := by
  unfold cancelStoredTimer
  cases s.refreshTimerId <;> rfl

@[simp] theorem cancelStoredTimer_log (s : CoordState) :
    (cancelStoredTimer s).log = s.log := by
  unfold cancelStoredTimer
  cases s.refreshTimerId <;> rfl

@[simp] theorem clearRefreshTimer_refreshTimerId (s : CoordState) :
    (clearRefreshTimer s).refreshTimerId = none := by
  unfold clearRefreshTimer
  cases h : s.refreshTimerId
  · exact h
  · rfl

@[simp] theorem clearRefreshTimer_proj (s : CoordState) :
    (clearRefreshTimer s).proj = s.proj := by
  unfold clearRefreshTimer
  cases s.refreshTimerId <;> rfl

@[simp] theorem clearRefreshTimer_trace (s : CoordState) :
    (clearRefreshTimer s).trace = s.trace := by
  unfold clearRefreshTimer
  cases s.refreshTimerId <;> rfl

@[simp] theorem clearRefreshTimer_signOutCount (s : CoordState) :
    (clearRefreshTimer s).signOutCount = s.signOutCount := by
  unfold clearRefreshTimer
  cases s.refreshTimerId <;> rfl

/-! The timer invariant and its preservation. -/

theorem timerTight_initState : timerTight initState := Or.inl rfl

theorem timerTight_length {s : CoordState} (h : timerTight s) :
    s.pendingTimers.length ≤ 1 := by
  rcases h with h | ⟨p, hp, _⟩
  · simp [h]
  · simp [hp]

theorem cancelStoredTimer_pendingTimers_of_tight {s : CoordState}
    (h : timerTight s) : (cancelStoredTimer s).pendingTimers = [] := by
  unfold cancelStoredTimer
  rcases h with h | ⟨p, hp, hid⟩
  · cases hh : s.refreshTimerId <;> simp [jsClearTimeout, h, hh]
  · rw [hid]
    simp [jsClearTimeout, hp]

theorem clearRefreshTimer_pendingTimers_of_tight {s : CoordState}
    (h : timerTight s) : (clearRefreshTimer s).pendingTimers = [] := by
  unfold clearRefreshTimer
  rcases h with h | ⟨p, hp, hid⟩
  · cases hh : s.refreshTimerId <;> simp [jsClearTimeout, h, hh]
  · rw [hid]
    simp [jsClearTimeout, hp]

theorem timerTight_congr {s s' : CoordState}
    (hp : s'.pendingTimers = s.pendingTimers)
    (hr : s'.refreshTimerId = s.refreshTimerId) (h : timerTight s) :
    timerTight s' := by
  unfold timerTight at h ⊢
  rw [hp, hr]
  exact h

theorem timerTight_setupRefreshTimer (opts : Options) (rounds : List Round) :
    ∀ s : CoordState, timerTight s → timerTight (setupRefreshTimer opts rounds s) := by
  induction rounds with
  | nil =>
    intro s h
    exact Or.inl (cancelStoredTimer_pendingTimers_of_tight h)
  | cons r rest ih =>
    intro s h
    have hpend := cancelStoredTimer_pendingTimers_of_tight h
    rw [setupRefreshTimer]
    cases hc : r.cached with
    | error e =>
      exact Or.inl (by simp [hpend])
    | ok token =>
      cases he : truthyExp token with
      | none =>
        refine Or.inl ?_
        by_cases hp : (parseJwt token).isNone <;> simp [he, hp, hpend]
      | some ex =>
        by_cases hd : 0 < ex * 1000 - opts.refreshBeforeExpiryMs - r.now
        · refine Or.inr ⟨((cancelStoredTimer s).nextTimerId,
            ex * 1000 - opts.refreshBeforeExpiryMs - r.now), ?_, ?_⟩ <;>
            simp [he, hd, hpend]
        · simp only [he]
          rw [if_neg hd]
          cases hf : r.forced with
          | ok newToken =>
            exact ih _ (Or.inl (by simp [hpend]))
          | error e =>
            exact Or.inl (by simp [hpend])

theorem timerTight_fireTimer (opts : Options) (forced : Except AuthErr Token)
    (rounds : List Round) (s : CoordState) (h : timerTight s) :
    timerTight (fireTimer opts forced rounds s) := by
  rw [fireTimer]
  rcases h with hnil | ⟨p, hp, hid⟩
  · rw [hnil]
    exact Or.inl hnil
  · rw [hp]
    cases forced with
    | ok newToken =>
      exact timerTight_setupRefreshTimer opts rounds _ (Or.inl (by simp))
    | error e =>
      by_cases hcode : isSessionInvalidCode e = true <;> simp [hcode, timerTight]

theorem timerTight_step (opts : Options) (s : CoordState) (e : Event)
    (h : timerTight s) : timerTight (step opts s e) := by
  cases e with
  | idChangedSignedIn cachedTop rounds =>
    cases cachedTop with
    | error _ => exact h
    | ok idToken =>
      exact timerTight_setupRefreshTimer opts rounds _
        (timerTight_congr (by simp) (by simp) h)
  | idChangedSignedOut =>
    exact Or.inl (by simp [step, clearRefreshTimer_pendingTimers_of_tight h])
  | timerFire forced rounds => exact timerTight_fireTimer opts forced rounds s h
  | logoutClick =>
    exact Or.inl (by simp [step, clearRefreshTimer_pendingTimers_of_tight h])
  | unmount => exact Or.inl (clearRefreshTimer_pendingTimers_of_tight h)

theorem timerTight_foldl (opts : Options) (events : List Event) :
    ∀ s : CoordState, timerTight s → timerTight (events.foldl (step opts) s) := by
  induction events with
  | nil => intro s h; exact h
  | cons e es ih => intro s h; exact ih _ (timerTight_step opts s e h)

theorem timerTight_run (opts : Options) (events : List Event) :
    timerTight (run opts events) :=
  timerTight_foldl opts events initState timerTight_initState

/-- In the coarse model, where every continuation chain runs atomically, at
most one timeout is ever pending.  This holds only of that abstraction: the
fine-grained model below shows interleaved chains violate it. -/
theorem run_atomic_single_timer (opts : Options) (events : List Event) :
    (run opts events).pendingTimers.length ≤ 1 ∧
      (run opts (events ++ [Event.idChangedSignedOut])).pendingTimers = [] := by
  constructor
  · exact timerTight_length (timerTight_run opts events)
  · have h := timerTight_run opts events
    rw [run, List.foldl_append]
    simp only [List.foldl_cons, List.foldl_nil]
    show (step opts (run opts events) .idChangedSignedOut).pendingTimers = []
    simp [step, clearRefreshTimer_pendingTimers_of_tight h]

/-! Invariant preservation in the fine-grained (microtask-level) model, for
serialized schedules only. -/

theorem stepAsync_fire_nil (opts : Options) (s : AState)
    (h : s.core.pendingTimers = []) : stepAsync opts s .fire = s := by
  rw [stepAsync, h]

theorem stepAsync_fire_cons (opts : Options) (s : AState) (t : Nat × Int)
    (rest : List (Nat × Int)) (h : s.core.pendingTimers = t :: rest) :
    stepAsync opts s .fire =
      { core := { s.core with
                  pendingTimers := rest
                  forcedFetches := s.core.forcedFetches + 1 }
        tasks := s.tasks ++ [.forcedTimer] } := by
  rw [stepAsync, h]

theorem stepAsync_complete_none (opts : Options) (s : AState) (i : Nat)
    (res : Except AuthErr Token) (now : Int) (h : s.tasks[i]? = none) :
    stepAsync opts s (.complete i res now) = s := by
  rw [stepAsync, h]

theorem stepAsync_complete_some (opts : Options) (s : AState) (i : Nat)
    (res : Except AuthErr Token) (now : Int) (k : PendingFetch)
    (h : s.tasks[i]? = some k) :
    stepAsync opts s (.complete i res now) =
      { core := (runTaskCompletion opts k res now s.core).1
        tasks := s.tasks.eraseIdx i ++ (runTaskCompletion opts k res now s.core).2 } := by
  rw [stepAsync, h]

theorem timerTight_runTaskCompletion_fst (opts : Options) (k : PendingFetch)
    (res : Except AuthErr Token) (now : Int) (s : CoordState)
    (ht : timerTight s)
    (hcached : k = PendingFetch.cachedFetch → s.pendingTimers = []) :
    timerTight (runTaskCompletion opts k res now s).1 := by
  have hpend := cancelStoredTimer_pendingTimers_of_tight ht
  cases k with
  | topFetch =>
    cases res with
    | error _ => exact ht
    | ok idToken =>
      refine Or.inl ?_
      exact cancelStoredTimer_pendingTimers_of_tight
        (timerTight_congr (by simp) (by simp) ht)
  | cachedFetch =>
    have h0 : s.pendingTimers = [] := hcached rfl
    cases res with
    | error _ => exact Or.inl (by simp [runTaskCompletion, h0])
    | ok token =>
      rw [runTaskCompletion]
      cases he : truthyExp token with
      | none =>
        refine Or.inl ?_
        by_cases hp : (parseJwt token).isNone <;> simp [he, hp, h0]
      | some ex =>
        by_cases hd : 0 < ex * 1000 - opts.refreshBeforeExpiryMs - now
        · refine Or.inr ⟨(s.nextTimerId,
            ex * 1000 - opts.refreshBeforeExpiryMs - now), ?_, ?_⟩ <;>
            simp [he, hd, h0]
        · refine Or.inl ?_
          simp only [he]
          rw [if_neg hd]
          simp [h0]
  | forcedImmediate =>
    cases res with
    | ok newToken =>
      refine Or.inl ?_
      exact cancelStoredTimer_pendingTimers_of_tight
        (timerTight_congr (by simp) (by simp) ht)
    | error _ => exact timerTight_congr (by simp [runTaskCompletion]) (by simp [runTaskCompletion]) ht
  | forcedTimer =>
    cases res with
    | ok newToken =>
      refine Or.inl ?_
      exact cancelStoredTimer_pendingTimers_of_tight
        (timerTight_congr (by simp) (by simp) ht)
    | error e =>
      rw [runTaskCompletion]
      by_cases hcode : isSessionInvalidCode e = true
      · rw [if_pos hcode]
        exact timerTight_congr (by simp) (by simp) ht
      · rw [if_neg hcode]
        exact timerTight_congr (by simp) (by simp) ht

theorem runTaskCompletion_snd_spec (opts : Options) (k : PendingFetch)
    (res : Except AuthErr Token) (now : Int) (s : CoordState)
    (ht : timerTight s)
    (hcached : k = PendingFetch.cachedFetch → s.pendingTimers = []) :
    (runTaskCompletion opts k res now s).2 = [] ∨
      ∃ k', (runTaskCompletion opts k res now s).2 = [k'] ∧
        (k' = PendingFetch.cachedFetch →
          (runTaskCompletion opts k res now s).1.pendingTimers = []) := by
  cases k with
  | topFetch =>
    cases res with
    | error _ => exact Or.inl rfl
    | ok idToken =>
      exact Or.inr ⟨.cachedFetch, rfl, fun _ =>
        cancelStoredTimer_pendingTimers_of_tight
          (timerTight_congr (by simp) (by simp) ht)⟩
  | cachedFetch =>
    have h0 : s.pendingTimers = [] := hcached rfl
    cases res with
    | error _ => exact Or.inl rfl
    | ok token =>
      rw [runTaskCompletion]
      cases he : truthyExp token with
      | none =>
        refine Or.inl ?_
        by_cases hp : (parseJwt token).isNone <;> simp [he, hp]
      | some ex =>
        by_cases hd : 0 < ex * 1000 - opts.refreshBeforeExpiryMs - now
        · refine Or.inl ?_
          simp [he, hd]
        · refine Or.inr ⟨.forcedImmediate, ?_, by simp⟩
          simp only [he]
          rw [if_neg hd]
  | forcedImmediate =>
    cases res with
    | ok newToken =>
      exact Or.inr ⟨.cachedFetch, rfl, fun _ =>
        cancelStoredTimer_pendingTimers_of_tight
          (timerTight_congr (by simp) (by simp) ht)⟩
    | error _ => exact Or.inl rfl
  | forcedTimer =>
    cases res with
    | ok newToken =>
      exact Or.inr ⟨.cachedFetch, rfl, fun _ =>
        cancelStoredTimer_pendingTimers_of_tight
          (timerTight_congr (by simp) (by simp) ht)⟩
    | error e =>
      rw [runTaskCompletion]
      by_cases hcode : isSessionInvalidCode e = true
      · rw [if_pos hcode]
        exact Or.inl rfl
      · rw [if_neg hcode]
        exact Or.inl rfl

theorem asyncSerialInv_step (opts : Options) (s : AState) (e : AsyncEvent)
    (h : asyncSerialInv s)
    (hser : (stepAsync opts s e).tasks.length ≤ 1) :
    asyncSerialInv (stepAsync opts s e) := by
  obtain ⟨ht, htasks⟩ := h
  cases e with
  | notifySignedIn =>
    rcases htasks with h0 | ⟨k, hk, _⟩
    · exact ⟨ht, Or.inr ⟨.topFetch, by simp [stepAsync, h0], by simp⟩⟩
    · exfalso
      have hts : (stepAsync opts s .notifySignedIn).tasks = s.tasks ++ [.topFetch] := rfl
      rw [hts, hk] at hser
      simp at hser
  | notifySignedOut =>
    have hclear := clearRefreshTimer_pendingTimers_of_tight ht
    refine ⟨Or.inl (by simp [stepAsync, hclear]), ?_⟩
    rcases htasks with h0 | ⟨k, hk, _⟩
    · exact Or.inl (by simp [stepAsync, h0])
    · exact Or.inr ⟨k, by simp [stepAsync, hk], fun _ => by simp [stepAsync, hclear]⟩
  | fire =>
    rcases hpt : s.core.pendingTimers with _ | ⟨t, rest⟩
    · rw [stepAsync_fire_nil opts s hpt]
      exact ⟨ht, htasks⟩
    · have htasks0 : s.tasks = [] := by
        rw [stepAsync_fire_cons opts s t rest hpt] at hser
        simp only [List.length_append, List.length_cons, List.length_nil] at hser
        exact List.eq_nil_of_length_eq_zero (by omega)
      have hrest : rest = [] := by
        rcases ht with h0 | ⟨p, hp, hid⟩
        · rw [h0] at hpt
          exact absurd hpt (by simp)
        · rw [hp] at hpt
          injection hpt with h1 h2
          exact h2.symm
      rw [stepAsync_fire_cons opts s t rest hpt]
      exact ⟨Or.inl (by simp [hrest]),
        Or.inr ⟨.forcedTimer, by simp [htasks0], by simp⟩⟩
  | complete i res now =>
    rcases htasks with h0 | ⟨k, hk, hkc⟩
    · have hnone : s.tasks[i]? = none := by simp [h0]
      rw [stepAsync_complete_none opts s i res now hnone]
      exact ⟨ht, Or.inl h0⟩
    · cases i with
      | succ j =>
        have hnone : s.tasks[j + 1]? = none := by simp [hk]
        rw [stepAsync_complete_none opts s (j + 1) res now hnone]
        exact ⟨ht, Or.inr ⟨k, hk, hkc⟩⟩
      | zero =>
        have hsome : s.tasks[0]? = some k := by simp [hk]
        rw [stepAsync_complete_some opts s 0 res now k hsome]
        have htight := timerTight_runTaskCompletion_fst opts k res now s.core ht hkc
        refine ⟨htight, ?_⟩
        have herase : s.tasks.eraseIdx 0 = [] := by simp [hk]
        rcases runTaskCompletion_snd_spec opts k res now s.core ht hkc with
          hsp | ⟨k', hk', himp⟩
        · exact Or.inl (by simp [herase, hsp])
        · exact Or.inr ⟨k', by simp [herase, hk'], himp⟩
  | logoutClick =>
    have hclear := clearRefreshTimer_pendingTimers_of_tight ht
    refine ⟨Or.inl (by simp [stepAsync, hclear]), ?_⟩
    rcases htasks with h0 | ⟨k, hk, _⟩
    · exact Or.inl (by simp [stepAsync, h0])
    · exact Or.inr ⟨k, by simp [stepAsync, hk], fun _ => by simp [stepAsync, hclear]⟩
  | unmount =>
    have hclear := clearRefreshTimer_pendingTimers_of_tight ht
    refine ⟨Or.inl (by simp [stepAsync, hclear]), ?_⟩
    rcases htasks with h0 | ⟨k, hk, _⟩
    · exact Or.inl (by simp [stepAsync, h0])
    · exact Or.inr ⟨k, by simp [stepAsync, hk], fun _ => by simp [stepAsync, hclear]⟩

theorem asyncSerialInv_run (opts : Options) :
    ∀ events : List AsyncEvent,
      (∀ n, n ≤ events.length →
        (runAsync opts (events.take n)).tasks.length ≤ 1) →
      asyncSerialInv (runAsync opts events) := by
  intro events
  induction events using List.reverseRecOn with
  | nil => exact fun _ => ⟨Or.inl rfl, Or.inl rfl⟩
  | append_singleton es e ih =>
    intro hser
    have hes : asyncSerialInv (runAsync opts es) := by
      apply ih
      intro n hn
      have h := hser n (by simp; omega)
      rwa [List.take_append_of_le_length hn] at h
    have hlast := hser (es ++ [e]).length (le_refl _)
    rw [List.take_length] at hlast
    have hstep : runAsync opts (es ++ [e]) = stepAsync opts (runAsync opts es) e := by
      rw [runAsync, List.foldl_append, List.foldl_cons, List.foldl_nil]
      rfl
    rw [hstep] at hlast ⊢
    exact asyncSerialInv_step opts (runAsync opts es) e hes hlast

/-- C1 (amended): under serialized schedules — at most one token-fetch
continuation in flight at every instant — at most one refresh timeout is
pending at any instant, and a sign-out notification leaves none pending.
(Interleaved continuation chains violate the invariant; see the
counterexample.) -/
theorem C1_serialized_single_timer (opts : Options) (events : List AsyncEvent)
    (hser : ∀ n, n ≤ events.length →
      (runAsync opts (events.take n)).tasks.length ≤ 1) :
    (runAsync opts events).core.pendingTimers.length ≤ 1 ∧
      (runAsync opts (events ++ [AsyncEvent.notifySignedOut])).core.pendingTimers = [] := by
  have hinv := asyncSerialInv_run opts events hser
  refine ⟨timerTight_length hinv.1, ?_⟩
  have hstep : runAsync opts (events ++ [AsyncEvent.notifySignedOut]) =
      stepAsync opts (runAsync opts events) .notifySignedOut := by
    rw [runAsync, List.foldl_append, List.foldl_cons, List.foldl_nil]
    rfl
  rw [hstep]
  simp [stepAsync, clearRefreshTimer_pendingTimers_of_tight hinv.1]

/-- Witness for the amended C1: a serialized run of one notification and its
two fetch completions. -/
theorem C1_serialized_single_timer_witness :
    (runAsync DEFAULT_OPTIONS serialEvents).core.pendingTimers.length ≤ 1 ∧
      (runAsync DEFAULT_OPTIONS
        (serialEvents ++ [AsyncEvent.notifySignedOut])).core.pendingTimers = [] :=
  C1_serialized_single_timer DEFAULT_OPTIONS serialEvents (by decide)

/-- C1 counterexample: two rapid signed-in notifications whose `getIdToken`
continuations interleave — both pass the cancel head of
`setupRefreshTimer` (src/index.js lines 247-250) while no timer is stored,
and then both cached-fetch continuations arm at line 266 — leave two
refresh timers pending at once; the subsequent sign-out cleanup cancels
only the stored handle, and the leaked timer stays pending. -/
theorem C1_counterexample :
    (runAsync DEFAULT_OPTIONS raceEvents).core.pendingTimers.length = 2 ∧
      (runAsync DEFAULT_OPTIONS
        (raceEvents ++ [AsyncEvent.notifySignedOut])).core.pendingTimers.length = 1 := by
  exact ⟨rfl, rfl⟩

/-! Shape lemmas: what one arming pass of `setupRefreshTimer` does on each
branch. -/

theorem setupRefreshTimer_arm (opts : Options) (r : Round) (rest : List Round)
    (s : CoordState) (tok : Token) (ex : Int)
    (hc : r.cached = Except.ok tok) (he : truthyExp tok = some ex)
    (hd : 0 < ex * 1000 - opts.refreshBeforeExpiryMs - r.now) :
    setupRefreshTimer opts (r :: rest) s =
      armTimer (ex * 1000 - opts.refreshBeforeExpiryMs - r.now)
        (logMsg .refreshScheduled (cancelStoredTimer s)) := by
  rw [setupRefreshTimer, hc]
  simp only [he]
  rw [if_pos hd]

theorem setupRefreshTimer_immediate_ok (opts : Options) (r : Round)
    (rest : List Round) (s : CoordState) (tok newTok : Token) (ex : Int)
    (hc : r.cached = Except.ok tok) (he : truthyExp tok = some ex)
    (hd : ex * 1000 - opts.refreshBeforeExpiryMs - r.now ≤ 0)
    (hf : r.forced = Except.ok newTok) :
    setupRefreshTimer opts (r :: rest) s =
      setupRefreshTimer opts rest
        (updateSwaggerAuth opts.securitySchemeName newTok.raw
          { logMsg .refreshingImmediately (cancelStoredTimer s) with
            forcedFetches := (cancelStoredTimer s).forcedFetches + 1 }) := by
  rw [setupRefreshTimer, hc]
  simp only [he]
  rw [if_neg (not_lt.mpr hd), hf]

theorem setupRefreshTimer_immediate_err (opts : Options) (r : Round)
    (rest : List Round) (s : CoordState) (tok : Token) (ex : Int) (e : AuthErr)
    (hc : r.cached = Except.ok tok) (he : truthyExp tok = some ex)
    (hd : ex * 1000 - opts.refreshBeforeExpiryMs - r.now ≤ 0)
    (hf : r.forced = Except.error e) :
    setupRefreshTimer opts (r :: rest) s =
      signOut (logMsg .immediateRefreshFailed
        { logMsg .refreshingImmediately (cancelStoredTimer s) with
          forcedFetches := (cancelStoredTimer s).forcedFetches + 1 }) := by
  rw [setupRefreshTimer, hc]
  simp only [he]
  rw [if_neg (not_lt.mpr hd), hf]

theorem setupRefreshTimer_badExp (opts : Options) (r : Round) (rest : List Round)
    (s : CoordState) (tok : Token)
    (hc : r.cached = Except.ok tok) (he : truthyExp tok = none) :
    setupRefreshTimer opts (r :: rest) s =
      logMsg .couldNotParseExp
        (if (parseJwt tok).isNone then logMsg .parseJwtFailed (cancelStoredTimer s)
         else cancelStoredTimer s) := by
  rw [setupRefreshTimer, hc]
  simp only [he]

theorem cancelStoredTimer_pendingTimers_of_nil {s : CoordState}
    (h : s.pendingTimers = []) : (cancelStoredTimer s).pendingTimers = [] :=
  cancelStoredTimer_pendingTimers_of_tight (Or.inl h)

theorem fireTimer_noop (opts : Options) (forced : Except AuthErr Token)
    (rounds : List Round) (s : CoordState) (h : s.pendingTimers = []) :
    fireTimer opts forced rounds s = s := by
  rw [fireTimer, h]

/-! Lemmas about the auth-store projection. -/

theorem getKey_setKey_self (k : String) (v : AuthEntry)
    (m : List (String × AuthEntry)) : getKey k (setKey k v m) = some v := by
  simp [getKey, setKey, List.find?]

theorem getKey_eraseKey_self (k : String) (m : List (String × AuthEntry)) :
    getKey k (eraseKey k m) = none := by
  induction m with
  | nil => rfl
  | cons p rest ih =>
    by_cases h : p.1 = k
    · simpa [eraseKey, List.filter_cons, h] using ih
    · have hb : (p.1 != k) = true := by simp [h]
      have hbeq : (p.1 == k) = false := by simp [h]
      rw [eraseKey, List.filter_cons, hb]
      simp only [getKey, List.find?, hbeq]
      exact ih

/-- C2: for an arming pass whose fetched token decodes to a truthy expiry
claim `ex` (seconds since epoch), the delay is
`ex * 1000 - refreshBeforeExpiryMs - now`; when the delay is positive,
exactly one one-shot timeout with exactly that delay is scheduled and no
forced fetch is made, and when the delay is nonpositive, a forced token
fetch is initiated within the same arming call and no timeout is created. -/
theorem C2_refresh_delay (opts : Options) (s : CoordState) (r : Round)
    (tok : Token) (ex : Int) (hs : timerTight s)
    (hc : r.cached = Except.ok tok) (he : truthyExp tok = some ex) :
    (0 < ex * 1000 - opts.refreshBeforeExpiryMs - r.now →
      (setupRefreshTimer opts [r] s).pendingTimers =
          [(s.nextTimerId, ex * 1000 - opts.refreshBeforeExpiryMs - r.now)] ∧
        (setupRefreshTimer opts [r] s).forcedFetches = s.forcedFetches) ∧
    (ex * 1000 - opts.refreshBeforeExpiryMs - r.now ≤ 0 →
      (setupRefreshTimer opts [r] s).pendingTimers = [] ∧
        (setupRefreshTimer opts [r] s).forcedFetches = s.forcedFetches + 1) := by
  have hpend := cancelStoredTimer_pendingTimers_of_tight hs
  constructor
  · intro hd
    rw [setupRefreshTimer_arm opts r [] s tok ex hc he hd]
    constructor <;> simp [hpend]
  · intro hd
    cases hf : r.forced with
    | ok newTok =>
      rw [setupRefreshTimer_immediate_ok opts r [] s tok newTok ex hc he hd hf,
        setupRefreshTimer]
      constructor
      · exact cancelStoredTimer_pendingTimers_of_nil (by simp [hpend])
      · simp
    | error e =>
      rw [setupRefreshTimer_immediate_err opts r [] s tok ex e hc he hd hf]
      constructor <;> simp [hpend]

/-- Witness for C2 at the spec's worked example: a token with `exp` one hour
past a clock reading of 0 and the default 300000 ms lead yields one timeout
of 3300000 ms and no forced fetch. -/
theorem C2_refresh_delay_witness :
    (setupRefreshTimer DEFAULT_OPTIONS [roundW] initState).pendingTimers =
        [(1, 3300000)] ∧
      (setupRefreshTimer DEFAULT_OPTIONS [roundW] initState).forcedFetches = 0 := by
  have h := (C2_refresh_delay DEFAULT_OPTIONS initState roundW tokW 3600
    (Or.inl rfl) rfl rfl).1 (by decide)
  exact h

/-- C5: after a signed-out identity notification, no timeout is pending, the
stored handle is cleared, the Authorization Projection no longer has an
entry for the configured scheme, and the only auth action this path issues
is the logout (no set). -/
theorem C5_signout_cleanup (opts : Options) (s : CoordState) (hs : timerTight s) :
    (step opts s .idChangedSignedOut).pendingTimers = [] ∧
      (step opts s .idChangedSignedOut).refreshTimerId = none ∧
      getKey opts.securitySchemeName (step opts s .idChangedSignedOut).proj = none ∧
      (step opts s .idChangedSignedOut).trace =
        .logout [opts.securitySchemeName] :: s.trace := by
  refine ⟨?_, ?_, ?_, ?_⟩
  · simp [step, clearRefreshTimer_pendingTimers_of_tight hs]
  · simp [step]
  · simp [step, getKey_eraseKey_self]
  · simp [step]

/-- Witness for C5 from a state holding one pending timeout. -/
theorem C5_signout_cleanup_witness :
    (step DEFAULT_OPTIONS sW .idChangedSignedOut).pendingTimers = [] ∧
      (step DEFAULT_OPTIONS sW .idChangedSignedOut).refreshTimerId = none ∧
      getKey DEFAULT_OPTIONS.securitySchemeName
        (step DEFAULT_OPTIONS sW .idChangedSignedOut).proj = none ∧
      (step DEFAULT_OPTIONS sW .idChangedSignedOut).trace =
        .logout [DEFAULT_OPTIONS.securitySchemeName] :: sW.trace :=
  C5_signout_cleanup DEFAULT_OPTIONS sW (Or.inr ⟨(1, 1000), rfl, rfl⟩)

/-- C6: when the fetched token's expiry claim is missing or undecodable, the
arming pass logs the warning and aborts: no timeout is set, the
Authorization Projection and action trace are untouched, and no forced fetch
is initiated. -/
theorem C6_decode_failure (opts : Options) (s : CoordState) (r : Round)
    (rest : List Round) (tok : Token) (hs : timerTight s)
    (hc : r.cached = Except.ok tok) (he : truthyExp tok = none) :
    (setupRefreshTimer opts (r :: rest) s).pendingTimers = [] ∧
      (setupRefreshTimer opts (r :: rest) s).proj = s.proj ∧
      (setupRefreshTimer opts (r :: rest) s).trace = s.trace ∧
      (setupRefreshTimer opts (r :: rest) s).forcedFetches = s.forcedFetches ∧
      LogMsg.couldNotParseExp ∈ (setupRefreshTimer opts (r :: rest) s).log ∧
      ∀ (f : Except AuthErr Token) (rs : List Round),
        step opts (setupRefreshTimer opts (r :: rest) s) (.timerFire f rs) =
          setupRefreshTimer opts (r :: rest) s := by
  have hpend := cancelStoredTimer_pendingTimers_of_tight hs
  have hnil : (setupRefreshTimer opts (r :: rest) s).pendingTimers = [] := by
    rw [setupRefreshTimer_badExp opts r rest s tok hc he]
    by_cases hp : (parseJwt tok).isNone <;> simp [hp, hpend]
  refine ⟨hnil, ?_, ?_, ?_, ?_, ?_⟩
  · rw [setupRefreshTimer_badExp opts r rest s tok hc he]
    by_cases hp : (parseJwt tok).isNone <;> simp [hp]
  · rw [setupRefreshTimer_badExp opts r rest s tok hc he]
    by_cases hp : (parseJwt tok).isNone <;> simp [hp]
  · rw [setupRefreshTimer_badExp opts r rest s tok hc he]
    by_cases hp : (parseJwt tok).isNone <;> simp [hp]
  · rw [setupRefreshTimer_badExp opts r rest s tok hc he]
    by_cases hp : (parseJwt tok).isNone <;> simp [hp]
  · intro f rs
    exact fireTimer_noop opts f rs _ hnil

/-- Witness for C6 on an undecodable token. -/
theorem C6_decode_failure_witness :
    (setupRefreshTimer DEFAULT_OPTIONS
        [{ cached := Except.ok tokBad, now := 0, forced := Except.ok tokBad }]
        initState).pendingTimers = [] ∧
      (setupRefreshTimer DEFAULT_OPTIONS
        [{ cached := Except.ok tokBad, now := 0, forced := Except.ok tokBad }]
        initState).proj = initState.proj ∧
      (setupRefreshTimer DEFAULT_OPTIONS
        [{ cached := Except.ok tokBad, now := 0, forced := Except.ok tokBad }]
        initState).trace = initState.trace ∧
      (setupRefreshTimer DEFAULT_OPTIONS
        [{ cached := Except.ok tokBad, now := 0, forced := Except.ok tokBad }]
        initState).forcedFetches = initState.forcedFetches ∧
      LogMsg.couldNotParseExp ∈ (setupRefreshTimer DEFAULT_OPTIONS
        [{ cached := Except.ok tokBad, now := 0, forced := Except.ok tokBad }]
        initState).log ∧
      step DEFAULT_OPTIONS
          (setupRefreshTimer DEFAULT_OPTIONS
            [{ cached := Except.ok tokBad, now := 0, forced := Except.ok tokBad }]
            initState) (.timerFire (Except.error errNetwork) []) =
        setupRefreshTimer DEFAULT_OPTIONS
          [{ cached := Except.ok tokBad, now := 0, forced := Except.ok tokBad }]
          initState := by
  have h := C6_decode_failure DEFAULT_OPTIONS initState
    { cached := Except.ok tokBad, now := 0, forced := Except.ok tokBad } []
    tokBad (Or.inl rfl) rfl rfl
  exact ⟨h.1, h.2.1, h.2.2.1, h.2.2.2.1, h.2.2.2.2.1,
    h.2.2.2.2.2 (Except.error errNetwork) []⟩

/-- C10: every set performed by `updateSwaggerAuth` installs, under the
scheme name, an entry with schema apiKey-in-header named authorization whose
value is the string `Bearer ` concatenated with the token, for every
token. -/
theorem C10_bearer_prefix (scheme token : String) (s : CoordState) :
    getKey scheme (updateSwaggerAuth scheme token s).proj =
        some { name := scheme, schemaType := "apiKey", schemaIn := "header",
               schemaName := "authorization", value := "Bearer " ++ token } ∧
      (updateSwaggerAuth scheme token s).trace =
        .authorize scheme (mkAuthEntry scheme token) :: .logout [scheme] :: s.trace :=
  ⟨by simp [getKey_setKey_self, mkAuthEntry], rfl⟩

theorem arm_after_empty (d : Int) (m : LogMsg) (X : CoordState)
    (h : X.pendingTimers = []) :
    (armTimer d (logMsg m (cancelStoredTimer X))).pendingTimers =
      [(X.nextTimerId, d)] := by
  simp [cancelStoredTimer_pendingTimers_of_nil h]

theorem fireTimer_ok (opts : Options) (newTok : Token) (rounds : List Round)
    (s : CoordState) (t : Nat × Int) (rest : List (Nat × Int))
    (hx : s.pendingTimers = t :: rest) :
    fireTimer opts (.ok newTok) rounds s =
      setupRefreshTimer opts rounds
        (updateSwaggerAuth opts.securitySchemeName newTok.raw
          (logMsg .tokenRefreshed
            { s with pendingTimers := rest,
                     forcedFetches := s.forcedFetches + 1 })) := by
  rw [fireTimer, hx]

theorem fireTimer_err (opts : Options) (e : AuthErr) (rounds : List Round)
    (s : CoordState) (t : Nat × Int) (rest : List (Nat × Int))
    (hx : s.pendingTimers = t :: rest) :
    fireTimer opts (.error e) rounds s =
      if isSessionInvalidCode e then
        signOut (logMsg .sessionExpiredSigningOut (logMsg .refreshFailed
          { s with pendingTimers := rest, forcedFetches := s.forcedFetches + 1 }))
      else
        logMsg .refreshFailed
          { s with pendingTimers := rest, forcedFetches := s.forcedFetches + 1 } := by
  rw [fireTimer, hx]

/-- C3 (amended): when a forced refresh initiated by the fired timer fails,
the error is logged, the user is signed out exactly when the failure code is
in the invalid-session class, and there is no retry (no new fetch, no new
timeout); when the forced refresh on the immediate path (nonpositive delay)
fails, the error is logged and the user is signed out unconditionally,
whatever the failure code. -/
theorem C3_forced_refresh_failure (opts : Options) (e : AuthErr) (s : CoordState)
    (rounds : List Round) (r : Round) (tok : Token) (ex : Int)
    (hp : s.pendingTimers ≠ [])
    (hc : r.cached = Except.ok tok) (he : truthyExp tok = some ex)
    (hd : ex * 1000 - opts.refreshBeforeExpiryMs - r.now ≤ 0)
    (hf : r.forced = Except.error e) :
    ((fireTimer opts (.error e) rounds s).signOutCount =
        s.signOutCount + (if isSessionInvalidCode e then 1 else 0) ∧
      LogMsg.refreshFailed ∈ (fireTimer opts (.error e) rounds s).log ∧
      (fireTimer opts (.error e) rounds s).forcedFetches = s.forcedFetches + 1 ∧
      (fireTimer opts (.error e) rounds s).pendingTimers = s.pendingTimers.tail) ∧
    ((setupRefreshTimer opts [r] s).signOutCount = s.signOutCount + 1 ∧
      LogMsg.immediateRefreshFailed ∈ (setupRefreshTimer opts [r] s).log) := by
  constructor
  · rcases hx : s.pendingTimers with _ | ⟨t, rest⟩
    · exact absurd hx hp
    · rw [fireTimer_err opts e rounds s t rest hx]
      by_cases hcode : isSessionInvalidCode e = true <;> simp [hcode]
  · rw [setupRefreshTimer_immediate_err opts r [] s tok ex e hc he hd hf]
    constructor <;> simp

/-- Witness for the amended C3: a non-session failure code at a state with a
pending timeout. -/
theorem C3_forced_refresh_failure_witness :
    ((fireTimer DEFAULT_OPTIONS (.error errNetwork) [] sW).signOutCount =
        sW.signOutCount + (if isSessionInvalidCode errNetwork then 1 else 0) ∧
      LogMsg.refreshFailed ∈ (fireTimer DEFAULT_OPTIONS (.error errNetwork) [] sW).log ∧
      (fireTimer DEFAULT_OPTIONS (.error errNetwork) [] sW).forcedFetches =
        sW.forcedFetches + 1 ∧
      (fireTimer DEFAULT_OPTIONS (.error errNetwork) [] sW).pendingTimers =
        sW.pendingTimers.tail) ∧
    ((setupRefreshTimer DEFAULT_OPTIONS [roundImmediateFail] sW).signOutCount =
        sW.signOutCount + 1 ∧
      LogMsg.immediateRefreshFailed ∈
        (setupRefreshTimer DEFAULT_OPTIONS [roundImmediateFail] sW).log) :=
  C3_forced_refresh_failure DEFAULT_OPTIONS errNetwork sW [] roundImmediateFail
    tokW 3600 (by decide) rfl rfl (by decide) rfl

/-- C3 counterexample: on the immediate-refresh path, a forced-fetch failure
whose code is not in the invalid-session class still triggers a sign-out,
refuting the claim that sign-out happens only for invalid-session
failures. -/
theorem C3_counterexample :
    (setupRefreshTimer DEFAULT_OPTIONS [roundImmediateFail] initState).signOutCount = 1 ∧
      isSessionInvalidCode errNetwork = false := by
  constructor
  · rfl
  · rfl

/-- C4: after the fired timer's forced refresh succeeds, the Authorization
Projection for the configured scheme holds exactly the new token, written as
an adjacent clear-then-set pair on the action trace, and one new timeout is
armed relative to the new token's expiry. -/
theorem C4_successful_forced_refresh (opts : Options) (s : CoordState)
    (newTok : Token) (r : Round) (ex : Int) (hs : timerTight s)
    (hp : s.pendingTimers ≠ [])
    (hc : r.cached = Except.ok newTok) (he : truthyExp newTok = some ex)
    (hd : 0 < ex * 1000 - opts.refreshBeforeExpiryMs - r.now)
    (r1 : Round) (tok1 : Token) (ex1 : Int)
    (hc1 : r1.cached = Except.ok tok1) (he1 : truthyExp tok1 = some ex1)
    (hd1 : ex1 * 1000 - opts.refreshBeforeExpiryMs - r1.now ≤ 0)
    (hf1 : r1.forced = Except.ok newTok) :
    (getKey opts.securitySchemeName (fireTimer opts (.ok newTok) [r] s).proj =
        some (mkAuthEntry opts.securitySchemeName newTok.raw) ∧
      (fireTimer opts (.ok newTok) [r] s).trace =
        .authorize opts.securitySchemeName (mkAuthEntry opts.securitySchemeName newTok.raw) ::
          .logout [opts.securitySchemeName] :: s.trace ∧
      (fireTimer opts (.ok newTok) [r] s).pendingTimers =
        [(s.nextTimerId, ex * 1000 - opts.refreshBeforeExpiryMs - r.now)]) ∧
    (getKey opts.securitySchemeName (setupRefreshTimer opts [r1, r] s).proj =
        some (mkAuthEntry opts.securitySchemeName newTok.raw) ∧
      (setupRefreshTimer opts [r1, r] s).trace =
        .authorize opts.securitySchemeName (mkAuthEntry opts.securitySchemeName newTok.raw) ::
          .logout [opts.securitySchemeName] :: s.trace ∧
      (setupRefreshTimer opts [r1, r] s).pendingTimers =
        [(s.nextTimerId, ex * 1000 - opts.refreshBeforeExpiryMs - r.now)]) := by
  have hpend := cancelStoredTimer_pendingTimers_of_tight hs
  constructor
  · rcases hs with hnil | ⟨p, hpl, hid⟩
    · exact absurd hnil hp
    · rw [fireTimer_ok opts newTok [r] s p [] hpl]
      rw [setupRefreshTimer_arm opts r [] _ newTok ex hc he hd]
      refine ⟨?_, ?_, ?_⟩
      · simp [getKey_setKey_self]
      · simp
      · rw [arm_after_empty]
        · simp
        · simp
  · rw [setupRefreshTimer_immediate_ok opts r1 [r] s tok1 newTok ex1 hc1 he1 hd1 hf1]
    rw [setupRefreshTimer_arm opts r [] _ newTok ex hc he hd]
    refine ⟨?_, ?_, ?_⟩
    · simp [getKey_setKey_self]
    · simp
    · rw [arm_after_empty]
      · simp
      · simp [hpend]

/-- Witness for C4: concrete fired-timer refresh and concrete
immediate-path refresh with the example token. -/
theorem C4_successful_forced_refresh_witness :
    (getKey DEFAULT_OPTIONS.securitySchemeName
        (fireTimer DEFAULT_OPTIONS (.ok tokW) [roundW] sW).proj =
      some (mkAuthEntry DEFAULT_OPTIONS.securitySchemeName tokW.raw) ∧
    (fireTimer DEFAULT_OPTIONS (.ok tokW) [roundW] sW).trace =
      .authorize DEFAULT_OPTIONS.securitySchemeName
          (mkAuthEntry DEFAULT_OPTIONS.securitySchemeName tokW.raw) ::
        .logout [DEFAULT_OPTIONS.securitySchemeName] :: sW.trace ∧
    (fireTimer DEFAULT_OPTIONS (.ok tokW) [roundW] sW).pendingTimers =
      [(2, 3300000)]) ∧
    (getKey DEFAULT_OPTIONS.securitySchemeName
        (setupRefreshTimer DEFAULT_OPTIONS [roundImmediateOk, roundW] sW).proj =
      some (mkAuthEntry DEFAULT_OPTIONS.securitySchemeName tokW.raw) ∧
    (setupRefreshTimer DEFAULT_OPTIONS [roundImmediateOk, roundW] sW).trace =
      .authorize DEFAULT_OPTIONS.securitySchemeName
          (mkAuthEntry DEFAULT_OPTIONS.securitySchemeName tokW.raw) ::
        .logout [DEFAULT_OPTIONS.securitySchemeName] :: sW.trace ∧
    (setupRefreshTimer DEFAULT_OPTIONS [roundImmediateOk, roundW] sW).pendingTimers =
      [(2, 3300000)]) :=
  C4_successful_forced_refresh DEFAULT_OPTIONS sW tokW roundW 3600
    (Or.inr ⟨(1, 1000), rfl, rfl⟩) (by decide) rfl rfl (by decide)
    roundImmediateOk tokW 3600 rfl rfl (by decide) rfl

/-! Lemmas about the provider-list generation. -/

set_option maxHeartbeats 1000000 in
theorem buildSignInOptionsStep_small {α : Type} (p : ProviderInput α) :
    buildSignInOptionsStep p = [] ∨ ∃ x, buildSignInOptionsStep p = [x] := by
  cases p with
  | custom c => exact Or.inr ⟨_, rfl⟩
  | str s =>
    simp only [buildSignInOptionsStep]
    split_ifs <;> first | exact Or.inl rfl | exact Or.inr ⟨_, rfl⟩

set_option maxHeartbeats 1000000 in
theorem generateSignInOptionsCodeStep_small {α : Type} (jsonStringify : α → String)
    (p : ProviderInput α) :
    generateSignInOptionsCodeStep jsonStringify p = [] ∨
      ∃ x, generateSignInOptionsCodeStep jsonStringify p = [x] := by
  cases p with
  | custom c => exact Or.inr ⟨_, rfl⟩
  | str s =>
    simp only [generateSignInOptionsCodeStep]
    split_ifs <;> first | exact Or.inl rfl | exact Or.inr ⟨_, rfl⟩

theorem buildSignInOptions_eq_filterMap {α : Type} (ps : List (ProviderInput α)) :
    buildSignInOptions ps = ps.filterMap buildEntryFor := by
  induction ps with
  | nil => rfl
  | cons p rest ih =>
    rw [buildSignInOptions]
    rcases buildSignInOptionsStep_small p with h | ⟨x, h⟩ <;>
      simp [List.filterMap_cons, buildEntryFor, h, ih]

theorem generateSignInOptionsList_eq_filterMap {α : Type}
    (jsonStringify : α → String) (ps : List (ProviderInput α)) :
    generateSignInOptionsList jsonStringify ps =
      ps.filterMap (genEntryFor jsonStringify) := by
  induction ps with
  | nil => rfl
  | cons p rest ih =>
    rw [generateSignInOptionsList]
    rcases generateSignInOptionsCodeStep_small jsonStringify p with h | ⟨x, h⟩ <;>
      simp [List.filterMap_cons, genEntryFor, h, ih]

theorem buildSignInOptionsStep_length_of_valid {α : Type} (p : ProviderInput α)
    (h : validProviderInput p = true) : (buildSignInOptionsStep p).length = 1 := by
  cases p with
  | custom c => rfl
  | str s =>
    simp [validProviderInput] at h
    rcases h with ((((((((h | h) | h) | h) | h) | h) | h) | h) | h) <;> subst h <;> rfl

theorem generateSignInOptionsCodeStep_length_of_valid {α : Type}
    (jsonStringify : α → String) (p : ProviderInput α)
    (h : validProviderInput p = true) :
    (generateSignInOptionsCodeStep jsonStringify p).length = 1 := by
  cases p with
  | custom c => rfl
  | str s =>
    simp [validProviderInput] at h
    rcases h with ((((((((h | h) | h) | h) | h) | h) | h) | h) | h) <;> subst h <;> rfl

theorem buildSignInOptions_length_of_valid {α : Type}
    (ps : List (ProviderInput α))
    (hv : ∀ p ∈ ps, validProviderInput p = true) :
    (buildSignInOptions ps).length = ps.length := by
  induction ps with
  | nil => rfl
  | cons p rest ih =>
    rw [buildSignInOptions, List.length_append,
      buildSignInOptionsStep_length_of_valid p (hv p (by simp)),
      ih (fun q hq => hv q (by simp [hq]))]
    simp [Nat.add_comm]

theorem generateSignInOptionsList_length_of_valid {α : Type}
    (jsonStringify : α → String) (ps : List (ProviderInput α))
    (hv : ∀ p ∈ ps, validProviderInput p = true) :
    (generateSignInOptionsList jsonStringify ps).length = ps.length := by
  induction ps with
  | nil => rfl
  | cons p rest ih =>
    rw [generateSignInOptionsList, List.length_append,
      generateSignInOptionsCodeStep_length_of_valid jsonStringify p (hv p (by simp)),
      ih (fun q hq => hv q (by simp [hq]))]
    simp [Nat.add_comm]

/-- C7: for every enabled-providers list (valid per the declared
`AuthProvider` type), both generated sign-in option lists contain exactly
one entry per input provider, in input order (each list is the in-order
image of the per-provider entry map), with custom object providers passed
through unmodified (`buildSignInOptions` pushes the object itself;
`generateSignInOptionsCode` pushes its JSON serialisation). -/
theorem C7_provider_options {α : Type} (jsonStringify : α → String)
    (ps : List (ProviderInput α))
    (hv : ∀ p ∈ ps, validProviderInput p = true) :
    buildSignInOptions ps = ps.filterMap buildEntryFor ∧
      (buildSignInOptions ps).length = ps.length ∧
      generateSignInOptionsList jsonStringify ps =
        ps.filterMap (genEntryFor jsonStringify) ∧
      (generateSignInOptionsList jsonStringify ps).length = ps.length ∧
      (∀ c : α, buildEntryFor (ProviderInput.custom c) =
        some (SignInEntry.custom c)) ∧
      (∀ c : α, genEntryFor jsonStringify (ProviderInput.custom c) =
        some (jsonStringify c)) :=
  ⟨buildSignInOptions_eq_filterMap ps,
   buildSignInOptions_length_of_valid ps hv,
   generateSignInOptionsList_eq_filterMap jsonStringify ps,
   generateSignInOptionsList_length_of_valid jsonStringify ps hv,
   fun _ => rfl, fun _ => rfl⟩

/-- Witness for C7 on `['email', 'google', customCfg]`. -/
theorem C7_provider_options_witness :
    buildSignInOptions providersW = providersW.filterMap buildEntryFor ∧
      (buildSignInOptions providersW).length = providersW.length ∧
      generateSignInOptionsList (fun s => s) providersW =
        providersW.filterMap (genEntryFor (fun s => s)) ∧
      (generateSignInOptionsList (fun s => s) providersW).length =
        providersW.length ∧
      (∀ c : String, buildEntryFor (ProviderInput.custom c) =
        some (SignInEntry.custom c)) ∧
      (∀ c : String, genEntryFor (fun s => s) (ProviderInput.custom c) =
        some c) :=
  C7_provider_options (fun s => s) providersW (by decide)

/-- C8 counterexample: a config that has `apiKey` but is missing the other
fields the declared `FirebaseConfig` type marks required (`authDomain`,
`projectId`) is accepted: `createSwaggerFirebaseAuth` returns a result
object instead of raising the configuration error the claim requires. -/
theorem C8_counterexample :
    isOkResult (createSwaggerFirebaseAuth (some cfgApiKeyOnly) {}) = true ∧
      hasRequiredConfigFields cfgApiKeyOnly = false :=
  ⟨rfl, rfl⟩

/-- C8 (amended): the configuration error is raised synchronously, with no
result object produced, exactly when the config object is absent or its
`apiKey` is absent or empty; the other fields the declared type marks
required are not checked. -/
theorem C8_config_error_boundary (cfg? : Option FirebaseConfig)
    (options : PartialOptions) :
    (createSwaggerFirebaseAuth cfg? options =
        Except.error "Firebase config with apiKey is required") ↔
      (cfg? = none ∨ ∃ c, cfg? = some c ∧ jsTruthyStr c.apiKey = false) := by
  cases cfg? with
  | none => simp [createSwaggerFirebaseAuth]
  | some c =>
    by_cases h : jsTruthyStr c.apiKey <;> simp [createSwaggerFirebaseAuth, h]

/-- C9: `createSwaggerFirebaseAuth` throws exactly when the config is
absent/falsy or its `apiKey` is falsy; any config with a truthy `apiKey` —
in particular one lacking `authDomain` and `projectId` — is accepted and a
result object is returned. -/
theorem C9_throw_boundary (cfg? : Option FirebaseConfig)
    (options : PartialOptions) :
    (isOkResult (createSwaggerFirebaseAuth cfg? options) = false ↔
      (cfg? = none ∨ ∃ c, cfg? = some c ∧ jsTruthyStr c.apiKey = false)) ∧
    (∀ c, cfg? = some c → jsTruthyStr c.apiKey = true →
      isOkResult (createSwaggerFirebaseAuth cfg? options) = true) := by
  constructor
  · cases cfg? with
    | none => simp [createSwaggerFirebaseAuth, isOkResult]
    | some c =>
      by_cases h : jsTruthyStr c.apiKey <;>
        simp [createSwaggerFirebaseAuth, isOkResult, h]
  · rintro c rfl htr
    simp [createSwaggerFirebaseAuth, isOkResult, htr]

/-- Witness for C9: the apiKey-only config is accepted. -/
theorem C9_throw_boundary_witness :
    isOkResult (createSwaggerFirebaseAuth (some cfgApiKeyOnly) {}) = true :=
  (C9_throw_boundary (some cfgApiKeyOnly) {}).2 cfgApiKeyOnly rfl rfl

end SwaggerFirebaseAuth
